import Mathlib

/-!
Verification of the execution-context and action-dispatch core of
`browsergym.async_core` against its design document.

The embedding follows the two source files `action/base.py` and
`action/functions.py`. The helper module `action/utils.py` and the package
initializer `action/__init__.py` are not part of the sources; the two values
taken from them (`call_fun`, the force-retry invoker, and
`get_global_demo_mode`, the process-wide demo-mode setting) are modelled from
the design document and marked as such at their definitions.

Pages, page elements and callback closures are modelled by abstract numeric
handles; the side effects of an action are recorded as a trace of the page
commands it issues, in order, together with the outcome it returns or raises.
-/

/-- Demo-mode levels, from the declared type of the `demo_mode_ctx` context
variable (`functions.py`, lines 21-23). -/
inductive DemoMode
  | off
  | default
  | all_blue
  | only_visible_elements
  deriving DecidableEq

/-- Per-invocation context variables. Each field mirrors one `ContextVar`
declared in `functions.py`, lines 14-24; `none` models a variable with no
value set in the current context (reading it raises `LookupError`). -/
structure ExecCtx where
  page : Option Nat
  send_message_to_user : Option Nat
  report_infeasible_instructions : Option Nat
  demo_mode : Option DemoMode
  retry_with_force : Option Bool
  deriving DecidableEq

/-- Context in which no variable has ever been set: the state of a fresh
task before any `execute_python_code` invocation has run in it. (It is not
the state after a completed invocation: `base.py`, line 115 awaits
`ctx.run(run_in_context)`, but `Context.run` wraps only the synchronous
creation of the coroutine, so the `ContextVar.set` calls of its body execute
in the enclosing task's context and persist there.) -/
def emptyCtx : ExecCtx := ⟨none, none, none, none, none⟩

/-- Characters of the literal force-retry marker scanned for in the submitted
code (`base.py`, line 86). -/
def markerChars : List Char := "OVERRIDE_RETRY_WITH_FORCE=True".toList

/-- Boolean substring test, the embedding of Python's `sub in s` on strings:
true exactly when `pat` occurs contiguously inside the second list. -/
def hasSubstr (pat : List Char) : List Char → Bool
  | [] => pat.isEmpty
  | c :: t => pat.isPrefixOf (c :: t) || hasSubstr pat t

/-- Embedding of `base.py`, line 86:
`retry_with_force = "OVERRIDE_RETRY_WITH_FORCE=True" in code`. -/
def retry_with_force_value (code : String) : Bool :=
  hasSubstr markerChars code.toList

/-- Embedding of `base.py`, line 87:
`demo_mode = "default" if get_global_demo_mode() else "off"`.
Modelled from the spec: `get_global_demo_mode` reads the process-wide
demo-mode setting and lives in `action/__init__.py`, absent from the sources;
the code uses it only for truthiness, so it is modelled as the Boolean
argument `globalDemoMode`. -/
def demo_mode_value (globalDemoMode : Bool) : DemoMode :=
  if globalDemoMode then .default else .off

/-- Context values bound by `run_in_context` (`base.py`, lines 96-100) for one
`execute_python_code` invocation. -/
def invocationCtx (page sendMsg reportInf : Nat) (code : String)
    (globalDemoMode : Bool) : ExecCtx :=
  { page := some page
    send_message_to_user := some sendMsg
    report_infeasible_instructions := some reportInf
    demo_mode := some (demo_mode_value globalDemoMode)
    retry_with_force := some (retry_with_force_value code) }

/-- Playwright-level failures of a low-level page operation. `actionability`
stands for the recoverable actionability errors that the force-retry invoker
may retry (design document, section 4.2); `other` for every other page
failure. -/
inductive PwErr
  | actionability
  | other
  deriving DecidableEq

/-- Python-level outcome of an action body: `contextNotSet` is the
`LookupError` raised by `ContextVar.get` when no value is set,
`zeroDivision` the `ZeroDivisionError` of an unguarded division, and `pw e`
a propagated playwright failure. -/
inductive PyErr
  | contextNotSet
  | zeroDivision
  | pw (e : PwErr)
  deriving DecidableEq

/-- Page commands a catalog action can issue, with the argument values the
source passes to the underlying playwright calls (timeouts in milliseconds;
a typing delay is `none` when the call passes no delay). -/
inductive Cmd
  | waitForTimeout (ms : ℚ)
  | sendMessage (cb : Nat) (text : String)
  | reportInfeasibleMsg (cb : Nat) (reason : String)
  | resolveBid (bid : String) (demoVisual : Bool)
  | demoEffects (bid : String) (mode : DemoMode) (moveCursor : Bool) (highlightBox : Bool)
  | elemClear (bid : String) (force : Bool) (timeout : Nat)
  | elemType (bid : String) (text : String) (delay : Option ℚ) (timeout : Nat)
  | elemFill (bid : String) (text : String) (force : Bool) (timeout : Nat)
  | elemCheck (bid : String) (force : Bool) (timeout : Nat)
  | elemUncheck (bid : String) (force : Bool) (timeout : Nat)
  | elemSelectOption (bid : String) (options : List String) (force : Bool) (timeout : Nat)
  | elemClick (bid : String) (button : String) (modifiers : List String)
      (force : Bool) (timeout : Nat)
  | elemHover (bid : String) (force : Bool) (timeout : Nat)
  | elemPress (bid : String) (keyComb : String) (timeout : Nat)
  | elemFocus (bid : String) (timeout : Nat)
  | mouseDown
  | mouseUp
  | keyboardType (text : String) (delay : Option ℚ)
  | keyboardInsertText (text : String)
  | keyboardPressKey (key : String)
  | keyboardDownKey (key : String)
  | keyboardUpKey (key : String)
  | setFiles (files : List String)
  deriving DecidableEq

instance {ε α : Type} [DecidableEq ε] [DecidableEq α] :
    DecidableEq (Except ε α) := fun x y =>
  match x, y with
  | .ok a, .ok b =>
      if h : a = b then .isTrue (by rw [h])
      else .isFalse (fun hh => h (Except.ok.inj hh))
  | .error a, .error b =>
      if h : a = b then .isTrue (by rw [h])
      else .isFalse (fun hh => h (Except.error.inj hh))
  | .ok _, .error _ => .isFalse (fun hh => Except.noConfusion hh)
  | .error _, .ok _ => .isFalse (fun hh => Except.noConfusion hh)

/-- Result of running one catalog action: the page commands issued, in order,
up to the point where the action returned or raised, and its outcome. -/
structure ActResult where
  trace : List Cmd
  result : Except PyErr Unit
  deriving DecidableEq

/-- Reading a context variable: `ContextVar.get` raises `LookupError` when no
value is set for the current context (none of the five variables declares a
default). -/
def readCtx {α : Type} (v : Option α) (k : α → ActResult) : ActResult :=
  match v with
  | none => ⟨[], .error .contextNotSet⟩
  | some a => k a

/-- Modelled from the spec: `call_fun`, the force-retry invoker of
`action/utils.py`, a file absent from the sources (only its callers are
present). Design document, section 4.2: the operation is first called with
`force=false`; when that fails with a recoverable actionability error and
`retry_with_force` is true, it is retried exactly once with `force=true`;
any other failure, and a failure of the forced retry, propagate unchanged. -/
def call_fun (op : Bool → ActResult) (retry_with_force : Bool) : ActResult :=
  let r := op false
  match r.result, retry_with_force with
  | .error (.pw .actionability), true =>
      let r2 := op true
      ⟨r.trace ++ r2.trace, r2.result⟩
  | _, _ => r

/-- Trace and outcome of one low-level page call issuing command `c`, the
page answering `res`. -/
def oneCmd (c : Cmd) (res : Except PwErr Unit) : ActResult :=
  ⟨[c], match res with
        | .ok _ => .ok ()
        | .error e => .error (.pw e)⟩

/-- Embedding of `send_msg_to_user` (`functions.py`, lines 32-39): calls the
bound user-message callback. -/
def send_msg_to_user (ctx : ExecCtx) (text : String) : ActResult :=
  readCtx ctx.send_message_to_user fun cb => ⟨[Cmd.sendMessage cb text], .ok ()⟩

/-- Embedding of `report_infeasible` (`functions.py`, lines 42-49): calls the
bound infeasible-instructions callback. -/
def report_infeasible (ctx : ExecCtx) (reason : String) : ActResult :=
  readCtx ctx.report_infeasible_instructions fun cb =>
    ⟨[Cmd.reportInfeasibleMsg cb reason], .ok ()⟩

/-- Embedding of `noop` (`functions.py`, lines 52-60): reads the page context
variable and waits for the given time. -/
def noop (ctx : ExecCtx) (wait_ms : ℚ) : ActResult :=
  readCtx ctx.page fun _page => ⟨[Cmd.waitForTimeout wait_ms], .ok ()⟩

/-- Inner closure `do(force)` of `fill` (`functions.py`, lines 80-87). In
demo mode it evaluates `max(2000 / len(value), 10)` first, which in Python
raises `ZeroDivisionError` on an empty value before any clear or keystroke;
its `elem.type` call passes `timeout=0` (no timeout); outside demo mode it is
a single `elem.fill(value, force=force, timeout=500)`. -/
def fill_do (bid value : String) (demo : DemoMode)
    (clearRes : Bool → Except PwErr Unit) (typeRes : Except PwErr Unit)
    (fillRes : Bool → Except PwErr Unit) (force : Bool) : ActResult :=
  if demo != DemoMode.off then
    if value.length = 0 then ⟨[], .error .zeroDivision⟩
    else
      let delay : ℚ := max (2000 / (value.length : ℚ)) 10
      match clearRes force with
      | .error e => ⟨[Cmd.elemClear bid force 500], .error (.pw e)⟩
      | .ok _ =>
        match typeRes with
        | .error e => ⟨[Cmd.elemClear bid force 500,
                        Cmd.elemType bid value (some delay) 0], .error (.pw e)⟩
        | .ok _ => ⟨[Cmd.elemClear bid force 500,
                     Cmd.elemType bid value (some delay) 0], .ok ()⟩
  else
    oneCmd (Cmd.elemFill bid value force 500) (fillRes force)

/-- Embedding of `fill` (`functions.py`, lines 64-88). `clearRes`, `typeRes`
and `fillRes` are the outcomes the page gives the low-level `elem.clear`,
`elem.type` and `elem.fill` calls (indexed by the force flag where the call
passes one). -/
def fill (ctx : ExecCtx) (bid value : String)
    (clearRes : Bool → Except PwErr Unit) (typeRes : Except PwErr Unit)
    (fillRes : Bool → Except PwErr Unit) : ActResult :=
  readCtx ctx.page fun _page =>
  readCtx ctx.demo_mode fun demo =>
  readCtx ctx.retry_with_force fun retry =>
    let pre := [Cmd.resolveBid bid (demo != DemoMode.off),
                Cmd.demoEffects bid demo false true]
    let r := call_fun (fill_do bid value demo clearRes typeRes fillRes) retry
    ⟨pre ++ r.trace, r.result⟩

/-- Embedding of `check` (`functions.py`, lines 92-108). -/
def check (ctx : ExecCtx) (bid : String)
    (checkRes : Bool → Except PwErr Unit) : ActResult :=
  readCtx ctx.page fun _page =>
  readCtx ctx.demo_mode fun demo =>
  readCtx ctx.retry_with_force fun retry =>
    let pre := [Cmd.resolveBid bid (demo != DemoMode.off),
                Cmd.demoEffects bid demo true true]
    let r := call_fun
      (fun force => oneCmd (Cmd.elemCheck bid force 500) (checkRes force)) retry
    ⟨pre ++ r.trace, r.result⟩

/-- Embedding of `uncheck` (`functions.py`, lines 112-128). -/
def uncheck (ctx : ExecCtx) (bid : String)
    (uncheckRes : Bool → Except PwErr Unit) : ActResult :=
  readCtx ctx.page fun _page =>
  readCtx ctx.demo_mode fun demo =>
  readCtx ctx.retry_with_force fun retry =>
    let pre := [Cmd.resolveBid bid (demo != DemoMode.off),
                Cmd.demoEffects bid demo true true]
    let r := call_fun
      (fun force => oneCmd (Cmd.elemUncheck bid force 500) (uncheckRes force)) retry
    ⟨pre ++ r.trace, r.result⟩

/-- Embedding of `select_option` (`functions.py`, lines 132-150). -/
def select_option (ctx : ExecCtx) (bid : String) (options : List String)
    (selectRes : Bool → Except PwErr Unit) : ActResult :=
  readCtx ctx.page fun _page =>
  readCtx ctx.demo_mode fun demo =>
  readCtx ctx.retry_with_force fun retry =>
    let pre := [Cmd.resolveBid bid (demo != DemoMode.off),
                Cmd.demoEffects bid demo false true]
    let r := call_fun
      (fun force =>
        oneCmd (Cmd.elemSelectOption bid options force 500) (selectRes force)) retry
    ⟨pre ++ r.trace, r.result⟩

/-- Embedding of `click` (`functions.py`, lines 154-176). -/
def click (ctx : ExecCtx) (bid : String) (button : String)
    (modifiers : List String) (clickRes : Bool → Except PwErr Unit) : ActResult :=
  readCtx ctx.page fun _page =>
  readCtx ctx.demo_mode fun demo =>
  readCtx ctx.retry_with_force fun retry =>
    let pre := [Cmd.resolveBid bid (demo != DemoMode.off),
                Cmd.demoEffects bid demo true true]
    let r := call_fun
      (fun force =>
        oneCmd (Cmd.elemClick bid button modifiers force 500) (clickRes force)) retry
    ⟨pre ++ r.trace, r.result⟩

/-- Embedding of `hover` (`functions.py`, lines 206-224): demo-mode effects
with `highlight_box=False`, then `elem.hover(force=force, timeout=500)`
through the force-retry invoker. -/
def hover (ctx : ExecCtx) (bid : String)
    (hoverRes : Bool → Except PwErr Unit) : ActResult :=
  readCtx ctx.page fun _page =>
  readCtx ctx.demo_mode fun demo =>
  readCtx ctx.retry_with_force fun retry =>
    let pre := [Cmd.resolveBid bid (demo != DemoMode.off),
                Cmd.demoEffects bid demo true false]
    let r := call_fun
      (fun force => oneCmd (Cmd.elemHover bid force 500) (hoverRes force)) retry
    ⟨pre ++ r.trace, r.result⟩

/-- Embedding of `press` (`functions.py`, lines 228-249): reads only the page
and demo-mode context variables and issues `elem.press(key_comb, timeout=500)`
directly, outside the force-retry invoker. -/
def press (ctx : ExecCtx) (bid keyComb : String)
    (pressRes : Except PwErr Unit) : ActResult :=
  readCtx ctx.page fun _page =>
  readCtx ctx.demo_mode fun demo =>
    let pre := [Cmd.resolveBid bid (demo != DemoMode.off),
                Cmd.demoEffects bid demo false true]
    let r := oneCmd (Cmd.elemPress bid keyComb 500) pressRes
    ⟨pre ++ r.trace, r.result⟩

/-- Embedding of `focus` (`functions.py`, lines 253-264): issues
`elem.focus(timeout=500)` directly, outside the force-retry invoker. -/
def focus (ctx : ExecCtx) (bid : String)
    (focusRes : Except PwErr Unit) : ActResult :=
  readCtx ctx.page fun _page =>
  readCtx ctx.demo_mode fun demo =>
    let pre := [Cmd.resolveBid bid (demo != DemoMode.off),
                Cmd.demoEffects bid demo false true]
    let r := oneCmd (Cmd.elemFocus bid 500) focusRes
    ⟨pre ++ r.trace, r.result⟩

/-- Embedding of `clear` (`functions.py`, lines 268-279): issues
`elem.clear(timeout=500)` directly (playwright's default `force=False`),
outside the force-retry invoker; the retry context variable is never read. -/
def clear (ctx : ExecCtx) (bid : String)
    (clearRes : Except PwErr Unit) : ActResult :=
  readCtx ctx.page fun _page =>
  readCtx ctx.demo_mode fun demo =>
    let pre := [Cmd.resolveBid bid (demo != DemoMode.off),
                Cmd.demoEffects bid demo false true]
    let r := oneCmd (Cmd.elemClear bid false 500) clearRes
    ⟨pre ++ r.trace, r.result⟩

/-- Embedding of `drag_and_drop` (`functions.py`, lines 283-302): two
resolve-decorate-hover passes with a mouse press in between; the hovers pass
`timeout=500` and no force flag, outside the force-retry invoker. -/
def drag_and_drop (ctx : ExecCtx) (from_bid to_bid : String)
    (hoverFromRes hoverToRes : Except PwErr Unit) : ActResult :=
  readCtx ctx.page fun _page =>
  readCtx ctx.demo_mode fun demo =>
    let pre := [Cmd.resolveBid from_bid (demo != DemoMode.off),
                Cmd.demoEffects from_bid demo true true]
    match hoverFromRes with
    | .error e => ⟨pre ++ [Cmd.elemHover from_bid false 500], .error (.pw e)⟩
    | .ok _ =>
      let mid := pre ++ [Cmd.elemHover from_bid false 500, Cmd.mouseDown,
                         Cmd.resolveBid to_bid (demo != DemoMode.off),
                         Cmd.demoEffects to_bid demo true true]
      match hoverToRes with
      | .error e => ⟨mid ++ [Cmd.elemHover to_bid false 500], .error (.pw e)⟩
      | .ok _ => ⟨mid ++ [Cmd.elemHover to_bid false 500, Cmd.mouseUp], .ok ()⟩

/-- Embedding of `keyboard_press` (`functions.py`, lines 434-453). -/
def keyboard_press (ctx : ExecCtx) (key : String) : ActResult :=
  readCtx ctx.page fun _page => ⟨[Cmd.keyboardPressKey key], .ok ()⟩

/-- Embedding of `keyboard_up` (`functions.py`, lines 457-472). -/
def keyboard_up (ctx : ExecCtx) (key : String) : ActResult :=
  readCtx ctx.page fun _page => ⟨[Cmd.keyboardUpKey key], .ok ()⟩

/-- Embedding of `keyboard_down` (`functions.py`, lines 476-490). -/
def keyboard_down (ctx : ExecCtx) (key : String) : ActResult :=
  readCtx ctx.page fun _page => ⟨[Cmd.keyboardDownKey key], .ok ()⟩

/-- Embedding of `keyboard_type` (`functions.py`, lines 494-509). When the
bound demo mode is not `"off"` the delay `max(2000 / len(text), 10)` is
computed (raising `ZeroDivisionError` on empty text, before any keystroke);
otherwise `delay` is `None`. -/
def keyboard_type (ctx : ExecCtx) (text : String) : ActResult :=
  readCtx ctx.page fun _page =>
  readCtx ctx.demo_mode fun demo =>
    if demo != DemoMode.off then
      if text.length = 0 then ⟨[], .error .zeroDivision⟩
      else ⟨[Cmd.keyboardType text (some (max (2000 / (text.length : ℚ)) 10))], .ok ()⟩
    else ⟨[Cmd.keyboardType text none], .ok ()⟩

/-- Embedding of `keyboard_insert_text` (`functions.py`, lines 513-524):
a direct passthrough to `page.keyboard.insert_text`. -/
def keyboard_insert_text (ctx : ExecCtx) (text : String) : ActResult :=
  readCtx ctx.page fun _page => ⟨[Cmd.keyboardInsertText text], .ok ()⟩

/-- Embedding of `upload_file` (`functions.py`, lines 643-663): resolve and
decorate, then an `elem.click(timeout=500)` under a file-chooser expectation,
then `file_chooser.set_files(file)`. -/
def upload_file (ctx : ExecCtx) (bid : String) (file : List String)
    (clickRes : Except PwErr Unit) : ActResult :=
  readCtx ctx.page fun _page =>
  readCtx ctx.demo_mode fun demo =>
    let pre := [Cmd.resolveBid bid (demo != DemoMode.off),
                Cmd.demoEffects bid demo true true]
    match clickRes with
    | .error e => ⟨pre ++ [Cmd.elemClick bid "left" [] false 500], .error (.pw e)⟩
    | .ok _ =>
        ⟨pre ++ [Cmd.elemClick bid "left" [] false 500, Cmd.setFiles file], .ok ()⟩

/-- Timeout carried by an element-level page command; `none` for commands
that are not element-level. -/
def elemTimeout? : Cmd → Option Nat
  | .elemClear _ _ t => some t
  | .elemType _ _ _ t => some t
  | .elemFill _ _ _ t => some t
  | .elemCheck _ _ t => some t
  | .elemUncheck _ _ t => some t
  | .elemSelectOption _ _ _ t => some t
  | .elemClick _ _ _ _ t => some t
  | .elemHover _ _ t => some t
  | .elemPress _ _ t => some t
  | .elemFocus _ t => some t
  | _ => none

/-- Force flag carried by a page command that passes one. -/
def cmdForce? : Cmd → Option Bool
  | .elemClear _ f _ => some f
  | .elemFill _ _ f _ => some f
  | .elemCheck _ f _ => some f
  | .elemUncheck _ f _ => some f
  | .elemSelectOption _ _ f _ => some f
  | .elemClick _ _ _ f _ => some f
  | .elemHover _ f _ => some f
  | _ => none

/-- One browsing context: the open tabs in creation order (playwright's
`context.pages`), a fresh-handle counter for pages created by
`context.new_page()`, and the page currently bound in `page_ctx` (the active
page). -/
structure TabState where
  pages : List Nat
  nextId : Nat
  active : Nat
  deriving DecidableEq

/-- Events observable around a tab action: a page closing, a page being
created, the synthetic `pageshow` event dispatched by `page.evaluate`, and
the final `page_ctx.set` rebinding the active page. -/
inductive TabEvent
  | closePage (p : Nat)
  | newPage (p : Nat)
  | pageshow (p : Nat)
  | ctxSet (p : Nat)
  deriving DecidableEq

/-- Embedding of `new_tab` (`functions.py`, lines 564-584):
`context.new_page()` appends a fresh page to the context's page list, the
`pageshow` event is dispatched on it, and it becomes the active page. -/
def new_tab (s : TabState) : TabState × List TabEvent :=
  let p := s.nextId
  (⟨s.pages ++ [p], p + 1, p⟩, [.newPage p, .pageshow p, .ctxSet p])

/-- Embedding of `tab_close` (`functions.py`, lines 588-614): the active page
is closed (removed from `context.pages`); when pages remain, the last of them
(`context.pages[-1]`, the most recently created) is taken, otherwise a fresh
replacement page is opened; the `pageshow` event is dispatched on the chosen
page and it becomes the active page. -/
def tab_close (s : TabState) : TabState × List TabEvent :=
  let remaining := s.pages.erase s.active
  match remaining.getLast? with
  | some p => (⟨remaining, s.nextId, p⟩,
               [.closePage s.active, .pageshow p, .ctxSet p])
  | none =>
      let p := s.nextId
      (⟨[p], p + 1, p⟩,
       [.closePage s.active, .newPage p, .pageshow p, .ctxSet p])

/-- Number of pages a trace of tab events creates. -/
def newPageCount (evs : List TabEvent) : Nat :=
  (evs.filter fun e => match e with | .newPage _ => true | _ => false).length

/-- Operations an execution performs on its contextvars context: the five
`ContextVar.set` calls of `run_in_context` (`base.py`, lines 96-100), the
`page_ctx.set` performed by tab actions, and reads of the three data-bearing
variables, whose answers are recorded as observations. -/
inductive CtxOp
  | setPage (p : Nat)
  | setSendMsg (cb : Nat)
  | setReportInf (cb : Nat)
  | setRetry (b : Bool)
  | setDemo (d : DemoMode)
  | readPage
  | readDemo
  | readRetry
  deriving DecidableEq

/-- Observation recorded by a context read: the value the variable resolved
to in the reading execution's own context (`none` when unset). -/
inductive CtxObs
  | page (v : Option Nat)
  | demo (v : Option DemoMode)
  | retry (v : Option Bool)
  deriving DecidableEq

/-- Effect of one context operation on one execution's context, with the
observations it records. -/
def ctxOpStep (c : ExecCtx) : CtxOp → ExecCtx × List CtxObs
  | .setPage p => ({c with page := some p}, [])
  | .setSendMsg cb => ({c with send_message_to_user := some cb}, [])
  | .setReportInf cb => ({c with report_infeasible_instructions := some cb}, [])
  | .setRetry b => ({c with retry_with_force := some b}, [])
  | .setDemo d => ({c with demo_mode := some d}, [])
  | .readPage => (c, [CtxObs.page c.page])
  | .readDemo => (c, [CtxObs.demo c.demo_mode])
  | .readRetry => (c, [CtxObs.retry c.retry_with_force])

/-- One logical execution (an asyncio task driving one
`execute_python_code` invocation): its own contextvars context (each task
carries a private copy of the context), its remaining operations, and the
observations recorded so far. -/
structure TaskState where
  ctx : ExecCtx
  ops : List CtxOp
  obs : List CtxObs
  deriving DecidableEq

/-- One cooperative step of a task: perform its next context operation on its
own context; a finished task is left unchanged. -/
def taskStep (t : TaskState) : TaskState :=
  match t.ops with
  | [] => t
  | op :: rest =>
      let s := ctxOpStep t.ctx op
      ⟨s.1, rest, t.obs ++ s.2⟩

/-- A task after `n` cooperative steps. -/
def taskRun : Nat → TaskState → TaskState
  | 0, t => t
  | n + 1, t => taskRun n (taskStep t)

/-- Interleaved execution of two concurrently scheduled tasks under a
schedule: `true` steps the first task, `false` the second. Each task steps
only its own context, which is how asyncio runs each task in its own copy of
the contextvars context. -/
def runSched (t1 t2 : TaskState) : List Bool → TaskState × TaskState
  | [] => (t1, t2)
  | b :: sched =>
      if b then runSched (taskStep t1) t2 sched
      else runSched t1 (taskStep t2) sched

/-- Context operations performed by one `execute_python_code` invocation:
the five `ContextVar.set` calls of `run_in_context` (`base.py`, lines
96-100), in source order, followed by whatever context operations the
submitted code's actions perform. -/
def invocationOps (page sendMsg reportInf : Nat) (code : String)
    (globalDemoMode : Bool) (body : List CtxOp) : List CtxOp :=
  [.setPage page, .setSendMsg sendMsg, .setReportInf reportInf,
   .setRetry (retry_with_force_value code),
   .setDemo (demo_mode_value globalDemoMode)] ++ body

/-- Task running one invocation whose code reads back the page, demo mode and
retry flag, started from an empty (fresh-copied) context. -/
def invocationTask (page sendMsg reportInf : Nat) (code : String)
    (globalDemoMode : Bool) : TaskState :=
  ⟨emptyCtx,
   invocationOps page sendMsg reportInf code globalDemoMode
     [.readPage, .readDemo, .readRetry],
   []⟩

theorem taskStep_of_ops_nil (t : TaskState) (h : t.ops = []) : taskStep t = t := by
  simp [taskStep, h]

theorem taskRun_of_ops_nil (n : Nat) (t : TaskState) (h : t.ops = []) :
    taskRun n t = t := by
  induction n with
  | zero => rfl
  | succ n ih => rw [taskRun, taskStep_of_ops_nil t h, ih]

theorem taskRun_add (m n : Nat) (t : TaskState) :
    taskRun (m + n) t = taskRun n (taskRun m t) := by
  induction m generalizing t with
  | zero => simp [taskRun]
  | succ m ih =>
      have h1 : m + 1 + n = (m + n) + 1 := by omega
      rw [h1]
      show taskRun (m + n) (taskStep t) = taskRun n (taskRun (m + 1) t)
      rw [ih (taskStep t)]
      rfl

/-- Interleaved execution decomposes into the two tasks' private sequential
executions: each task's outcome depends only on its own start state and on
how many steps the scheduler gave it. -/
theorem runSched_eq (sched : List Bool) (t1 t2 : TaskState) :
    runSched t1 t2 sched =
      (taskRun (sched.count true) t1, taskRun (sched.count false) t2) := by
  induction sched generalizing t1 t2 with
  | nil => simp [runSched, taskRun]
  | cons b sched ih =>
      cases b <;> simp [runSched, ih, List.count_cons, taskRun]

/-- C1: two concurrently running `execute_python_code` invocations never
observe each other's context. Under any schedule, each task's context,
remaining operations and recorded observations equal those of its own
sequential run, and are unchanged when the other task and the schedule's
interleaving are replaced arbitrarily (keeping the number of steps the first
task receives); a completed invocation whose code reads back the page, demo
mode and retry flag observes exactly the values bound for it by
`run_in_context`, including its own page, never the other invocation's. -/
theorem execute_python_code_context_isolation
    (t1 t2 t2' : TaskState) (sched sched' : List Bool)
    (p sm ri : Nat) (code : String) (g : Bool) (n : Nat)
    (hcount : sched.count true = sched'.count true) (hn : 8 ≤ n) :
    (runSched t1 t2 sched).1 = taskRun (sched.count true) t1 ∧
    (runSched t1 t2 sched).2 = taskRun (sched.count false) t2 ∧
    (runSched t1 t2' sched').1 = (runSched t1 t2 sched).1 ∧
    (taskRun n (invocationTask p sm ri code g)).obs =
      [CtxObs.page (some p), CtxObs.demo (some (demo_mode_value g)),
       CtxObs.retry (some (retry_with_force_value code))] := by
  obtain ⟨k, rfl⟩ : ∃ k, n = 8 + k := ⟨n - 8, by omega⟩
  refine ⟨?_, ?_, ?_, ?_⟩
  · rw [runSched_eq]
  · rw [runSched_eq]
  · rw [runSched_eq, runSched_eq, hcount]
  · rw [taskRun_add]
    have h8 : taskRun 8 (invocationTask p sm ri code g) =
        ⟨invocationCtx p sm ri code g, [],
         [CtxObs.page (some p), CtxObs.demo (some (demo_mode_value g)),
          CtxObs.retry (some (retry_with_force_value code))]⟩ := rfl
    rw [h8, taskRun_of_ops_nil k _ rfl]

theorem execute_python_code_context_isolation_witness :
    ([true, false].count true = [false, true].count true) ∧ (8 ≤ 8) ∧
    ((runSched ⟨emptyCtx, [CtxOp.setPage 1, CtxOp.readPage], []⟩
        ⟨emptyCtx, [CtxOp.setPage 2, CtxOp.readPage], []⟩ [true, false]).1 =
       taskRun ([true, false].count true)
         ⟨emptyCtx, [CtxOp.setPage 1, CtxOp.readPage], []⟩ ∧
     (runSched ⟨emptyCtx, [CtxOp.setPage 1, CtxOp.readPage], []⟩
        ⟨emptyCtx, [CtxOp.setPage 2, CtxOp.readPage], []⟩ [true, false]).2 =
       taskRun ([true, false].count false)
         ⟨emptyCtx, [CtxOp.setPage 2, CtxOp.readPage], []⟩ ∧
     (runSched ⟨emptyCtx, [CtxOp.setPage 1, CtxOp.readPage], []⟩
        ⟨emptyCtx, [], []⟩ [false, true]).1 =
       (runSched ⟨emptyCtx, [CtxOp.setPage 1, CtxOp.readPage], []⟩
        ⟨emptyCtx, [CtxOp.setPage 2, CtxOp.readPage], []⟩ [true, false]).1 ∧
     (taskRun 8 (invocationTask 5 6 7 "" false)).obs =
       [CtxObs.page (some 5), CtxObs.demo (some (demo_mode_value false)),
        CtxObs.retry (some (retry_with_force_value ""))]) :=
  ⟨by decide, by decide,
   execute_python_code_context_isolation
     ⟨emptyCtx, [CtxOp.setPage 1, CtxOp.readPage], []⟩
     ⟨emptyCtx, [CtxOp.setPage 2, CtxOp.readPage], []⟩
     ⟨emptyCtx, [], []⟩ [true, false] [false, true]
     5 6 7 "" false 8 (by decide) (by decide)⟩

theorem isPrefixOf_iff_exists (l₁ l₂ : List Char) :
    l₁.isPrefixOf l₂ = true ↔ ∃ t, l₁ ++ t = l₂ := by
  induction l₁ generalizing l₂ with
  | nil => simp [List.isPrefixOf]
  | cons a l ih =>
      cases l₂ with
      | nil => simp [List.isPrefixOf]
      | cons b m =>
          simp only [List.isPrefixOf, Bool.and_eq_true, beq_iff_eq, ih,
            List.cons_append, List.cons.injEq]
          constructor
          · rintro ⟨rfl, t, rfl⟩
            exact ⟨t, rfl, rfl⟩
          · rintro ⟨t, rfl, rfl⟩
            exact ⟨rfl, t, rfl⟩

theorem hasSubstr_iff_exists (pat s : List Char) :
    hasSubstr pat s = true ↔ ∃ pre post, s = pre ++ pat ++ post := by
  induction s with
  | nil =>
      simp only [hasSubstr, List.isEmpty_iff]
      constructor
      · rintro rfl
        exact ⟨[], [], rfl⟩
      · rintro ⟨pre, post, h⟩
        rcases List.append_eq_nil.mp h.symm with ⟨h1, h2⟩
        exact (List.append_eq_nil.mp h1).2
  | cons c t ih =>
      simp only [hasSubstr, Bool.or_eq_true, isPrefixOf_iff_exists, ih]
      constructor
      · rintro (⟨post, hp⟩ | ⟨pre, post, rfl⟩)
        · exact ⟨[], post, by simpa using hp.symm⟩
        · exact ⟨c :: pre, post, rfl⟩
      · rintro ⟨pre, post, h⟩
        cases pre with
        | nil =>
            left
            exact ⟨post, by simpa using h.symm⟩
        | cons x xs =>
            right
            refine ⟨xs, post, ?_⟩
            have := List.cons.inj (by simpa using h)
            simpa [this.1] using this.2

/-- C2: the force-retry flag bound for an execution is true exactly when the
literal marker `OVERRIDE_RETRY_WITH_FORCE=True` occurs as a substring
anywhere in the submitted code (a plain textual scan, so also inside comments
or string literals); when the marker is absent the bound flag is false, and
the force-retry invoker called with a false flag performs exactly the single
unforced attempt, never a forced retry. -/
theorem retry_with_force_marker_iff (p sm ri : Nat) (code : String) (g : Bool)
    (op : Bool → ActResult) :
    (invocationCtx p sm ri code g).retry_with_force
        = some (retry_with_force_value code) ∧
    (retry_with_force_value code = true ↔
      ∃ pre post, code.toList = pre ++ markerChars ++ post) ∧
    call_fun op false = op false ∧
    ((¬ ∃ pre post, code.toList = pre ++ markerChars ++ post) →
      retry_with_force_value code = false) := by
  have hiff := hasSubstr_iff_exists markerChars code.toList
  refine ⟨rfl, hiff, ?_, ?_⟩
  · unfold call_fun
    rcases hres : (op false).result with u | e
    · simp [hres]
    · rcases e with _ | _ | e'
      all_goals simp [hres]
  · intro hnot
    rcases h : retry_with_force_value code with _ | _
    · rfl
    · exact absurd (hiff.mp h) hnot

/-- C3: with demo mode bound to anything but `"off"`, `keyboard_type` passes
a per-character delay of `max(2000 / L, 10)` milliseconds for text of length
`L > 0`, and `fill` types through `elem.type` with the same delay after a
forceless `elem.clear`; with demo mode `"off"`, `keyboard_type` passes no
delay (`delay=None`, fastest) and `fill` issues a single delay-free
`elem.fill`. -/
theorem typing_delay_formula (p sm ri : Nat) (retry : Bool) (demo : DemoMode)
    (bid text value : String)
    (htext : text.length ≠ 0) (hvalue : value.length ≠ 0)
    (hdemo : demo ≠ DemoMode.off) :
    keyboard_type ⟨some p, some sm, some ri, some demo, some retry⟩ text =
      ⟨[Cmd.keyboardType text (some (max (2000 / (text.length : ℚ)) 10))], .ok ()⟩ ∧
    keyboard_type ⟨some p, some sm, some ri, some DemoMode.off, some retry⟩ text =
      ⟨[Cmd.keyboardType text none], .ok ()⟩ ∧
    fill ⟨some p, some sm, some ri, some demo, some retry⟩ bid value
        (fun _ => .ok ()) (.ok ()) (fun _ => .ok ()) =
      ⟨[Cmd.resolveBid bid true, Cmd.demoEffects bid demo false true,
        Cmd.elemClear bid false 500,
        Cmd.elemType bid value (some (max (2000 / (value.length : ℚ)) 10)) 0],
       .ok ()⟩ ∧
    fill ⟨some p, some sm, some ri, some DemoMode.off, some retry⟩ bid value
        (fun _ => .ok ()) (.ok ()) (fun _ => .ok ()) =
      ⟨[Cmd.resolveBid bid false, Cmd.demoEffects bid DemoMode.off false true,
        Cmd.elemFill bid value false 500], .ok ()⟩ := by
  have hb : (demo != DemoMode.off) = true := bne_iff_ne.mpr hdemo
  refine ⟨?_, ?_, ?_, ?_⟩
  · simp [keyboard_type, readCtx, hb, htext]
  · simp [keyboard_type, readCtx]
  · simp [fill, fill_do, readCtx, hb, hvalue, call_fun]
  · simp [fill, fill_do, readCtx, call_fun, oneCmd]

theorem typing_delay_formula_witness :
    ("hi".length ≠ 0) ∧ ("yo".length ≠ 0) ∧ (DemoMode.default ≠ DemoMode.off) ∧
    (keyboard_type ⟨some 0, some 0, some 0, some DemoMode.default, some false⟩ "hi" =
      ⟨[Cmd.keyboardType "hi" (some (max (2000 / (("hi".length : Nat) : ℚ)) 10))],
       .ok ()⟩ ∧
     keyboard_type ⟨some 0, some 0, some 0, some DemoMode.off, some false⟩ "hi" =
      ⟨[Cmd.keyboardType "hi" none], .ok ()⟩ ∧
     fill ⟨some 0, some 0, some 0, some DemoMode.default, some false⟩ "a" "yo"
        (fun _ => .ok ()) (.ok ()) (fun _ => .ok ()) =
      ⟨[Cmd.resolveBid "a" true, Cmd.demoEffects "a" DemoMode.default false true,
        Cmd.elemClear "a" false 500,
        Cmd.elemType "a" "yo" (some (max (2000 / (("yo".length : Nat) : ℚ)) 10)) 0],
       .ok ()⟩ ∧
     fill ⟨some 0, some 0, some 0, some DemoMode.off, some false⟩ "a" "yo"
        (fun _ => .ok ()) (.ok ()) (fun _ => .ok ()) =
      ⟨[Cmd.resolveBid "a" false, Cmd.demoEffects "a" DemoMode.off false true,
        Cmd.elemFill "a" "yo" false 500], .ok ()⟩) :=
  ⟨by decide, by decide, by decide,
   typing_delay_formula 0 0 0 false DemoMode.default "a" "hi" "yo"
     (by decide) (by decide) (by decide)⟩

theorem getLast?_erase_of_ne (l : List Nat) (a q : Nat)
    (h : l.getLast? = some q) (hne : q ≠ a) :
    (l.erase a).getLast? = some q := by
  induction l with
  | nil => simp at h
  | cons x xs ih =>
      cases xs with
      | nil =>
          simp only [List.getLast?_singleton, Option.some.injEq] at h
          subst h
          have hb : (x == a) = false := beq_eq_false_iff_ne.mpr hne
          simp [List.erase_cons, hb]
      | cons y ys =>
          rw [List.getLast?_cons_cons] at h
          have h2 := ih h
          by_cases hxa : x = a
          · subst hxa
            simpa [List.erase_cons_head] using h
          · rw [List.erase_cons_tail (by simpa using hxa)]
            rcases hzz : (y :: ys).erase a with _ | ⟨z, zs⟩
            · rw [hzz] at h2
              simp at h2
            · rw [hzz] at h2
              rw [List.getLast?_cons_cons]
              exact h2

/-- C4: closing the only open tab creates exactly one replacement page and
makes it active; closing a tab while others remain activates the last
element of the context's remaining page list (the most recently created
remaining tab), in particular the original last tab when a non-last tab was
closed; a new tab always becomes the active page; and in every case the
`pageshow` event is dispatched on the newly active page after the page-list
mutation, before the active-page rebinding. -/
theorem tab_lifecycle (s : TabState)
    (hfresh : ∀ q ∈ s.pages, q < s.nextId) :
    (s.pages = [s.active] →
      tab_close s =
        (⟨[s.nextId], s.nextId + 1, s.nextId⟩,
         [TabEvent.closePage s.active, TabEvent.newPage s.nextId,
          TabEvent.pageshow s.nextId, TabEvent.ctxSet s.nextId]) ∧
      newPageCount (tab_close s).2 = 1) ∧
    (∀ q, (s.pages.erase s.active).getLast? = some q →
      (tab_close s).1.active = q ∧
      (tab_close s).1.pages = s.pages.erase s.active ∧
      (tab_close s).2 =
        [TabEvent.closePage s.active, TabEvent.pageshow q, TabEvent.ctxSet q] ∧
      newPageCount (tab_close s).2 = 0) ∧
    (∀ q, s.pages.getLast? = some q → q ≠ s.active →
      (tab_close s).1.active = q) ∧
    ((new_tab s).1.active = s.nextId ∧ s.nextId ∉ s.pages ∧
      (new_tab s).1.pages = s.pages ++ [s.nextId] ∧
      (new_tab s).2 = [TabEvent.newPage s.nextId, TabEvent.pageshow s.nextId,
                       TabEvent.ctxSet s.nextId]) ∧
    (∃ m, (tab_close s).2 =
        m ++ [TabEvent.pageshow (tab_close s).1.active,
              TabEvent.ctxSet (tab_close s).1.active] ∧
      ∀ e ∈ m, e = TabEvent.closePage s.active ∨
        e = TabEvent.newPage (tab_close s).1.active) := by
  refine ⟨?_, ?_, ?_, ?_, ?_⟩
  · intro h
    have he : s.pages.erase s.active = [] := by
      rw [h, List.erase_cons_head]
    constructor
    · simp [tab_close, he]
    · simp [tab_close, he, newPageCount]
  · intro q hq
    refine ⟨?_, ?_, ?_, ?_⟩ <;> simp [tab_close, hq, newPageCount]
  · intro q hq hne
    have h2 := getLast?_erase_of_ne s.pages s.active q hq hne
    simp [tab_close, h2]
  · refine ⟨rfl, ?_, rfl, rfl⟩
    intro hmem2
    exact absurd (hfresh _ hmem2) (lt_irrefl _)
  · rcases hq : (s.pages.erase s.active).getLast? with _ | q
    · refine ⟨[TabEvent.closePage s.active, TabEvent.newPage s.nextId], ?_, ?_⟩
      · simp [tab_close, hq]
      · intro e he
        simp only [List.mem_cons, List.not_mem_nil, or_false] at he
        rcases he with h | h
        · exact Or.inl h
        · right
          rw [h]
          simp [tab_close, hq]
    · refine ⟨[TabEvent.closePage s.active], ?_, ?_⟩
      · simp [tab_close, hq]
      · intro e he
        simp only [List.mem_cons, List.not_mem_nil, or_false] at he
        exact Or.inl he

/-- Browsing-context state used to witness the tab-lifecycle theorem: three
tabs, the middle one active. -/
def tabS : TabState := ⟨[0, 1, 2], 3, 1⟩

theorem tab_lifecycle_witness :
    (∀ q ∈ tabS.pages, q < tabS.nextId) ∧
    ((tabS.pages = [tabS.active] →
      tab_close tabS =
        (⟨[tabS.nextId], tabS.nextId + 1, tabS.nextId⟩,
         [TabEvent.closePage tabS.active, TabEvent.newPage tabS.nextId,
          TabEvent.pageshow tabS.nextId, TabEvent.ctxSet tabS.nextId]) ∧
      newPageCount (tab_close tabS).2 = 1) ∧
    (∀ q, (tabS.pages.erase tabS.active).getLast? = some q →
      (tab_close tabS).1.active = q ∧
      (tab_close tabS).1.pages = tabS.pages.erase tabS.active ∧
      (tab_close tabS).2 =
        [TabEvent.closePage tabS.active, TabEvent.pageshow q, TabEvent.ctxSet q] ∧
      newPageCount (tab_close tabS).2 = 0) ∧
    (∀ q, tabS.pages.getLast? = some q → q ≠ tabS.active →
      (tab_close tabS).1.active = q) ∧
    ((new_tab tabS).1.active = tabS.nextId ∧ tabS.nextId ∉ tabS.pages ∧
      (new_tab tabS).1.pages = tabS.pages ++ [tabS.nextId] ∧
      (new_tab tabS).2 = [TabEvent.newPage tabS.nextId, TabEvent.pageshow tabS.nextId,
                          TabEvent.ctxSet tabS.nextId]) ∧
    (∃ m, (tab_close tabS).2 =
        m ++ [TabEvent.pageshow (tab_close tabS).1.active,
              TabEvent.ctxSet (tab_close tabS).1.active] ∧
      ∀ e ∈ m, e = TabEvent.closePage tabS.active ∨
        e = TabEvent.newPage (tab_close tabS).1.active)) :=
  ⟨by decide, tab_lifecycle tabS (by decide)⟩

/-- C7: the claim fails on the code. `base.py`, line 115 awaits
`ctx.run(run_in_context)`, but `Context.run` confines only the synchronous
creation of the coroutine, so the five `ContextVar.set` calls of
`run_in_context` execute in the enclosing task's context and nothing unsets
them: after a completed invocation's five sets, however long the task keeps
running, the task's context still holds the bound values (first conjunct). A
catalog action then invoked outside any `execute_python_code` scope in that
task proceeds with the stale values — `noop` waits on the stale page and
`send_msg_to_user` calls the stale callback — instead of failing with the
context-not-set error. Only in a task where no invocation has ever run are
all variables unset, and there the first context read does raise it
(`noop`, `click` and `send_msg_to_user` fail with an empty trace). -/
theorem stale_context_after_invocation (p sm ri : Nat) (code : String)
    (g : Bool) (k : Nat) (w : ℚ) (bid button text : String)
    (modifiers : List String) (res : Bool → Except PwErr Unit) :
    (taskRun (5 + k) ⟨emptyCtx, invocationOps p sm ri code g [], []⟩).ctx =
      invocationCtx p sm ri code g ∧
    noop (invocationCtx p sm ri code g) w =
      ⟨[Cmd.waitForTimeout w], .ok ()⟩ ∧
    (noop (invocationCtx p sm ri code g) w).result ≠
      Except.error PyErr.contextNotSet ∧
    send_msg_to_user (invocationCtx p sm ri code g) text =
      ⟨[Cmd.sendMessage sm text], .ok ()⟩ ∧
    noop emptyCtx w = ⟨[], .error .contextNotSet⟩ ∧
    click emptyCtx bid button modifiers res = ⟨[], .error .contextNotSet⟩ ∧
    send_msg_to_user emptyCtx text = ⟨[], .error .contextNotSet⟩ := by
  refine ⟨?_, rfl, ?_, rfl, rfl, rfl, rfl⟩
  · rw [taskRun_add]
    have h5 : taskRun 5 ⟨emptyCtx, invocationOps p sm ri code g [], []⟩ =
        ⟨invocationCtx p sm ri code g, [], []⟩ := rfl
    rw [h5, taskRun_of_ops_nil k _ rfl]
  · intro h
    exact Except.noConfusion h

/-- C9: the demo mode bound into the context by `execute_python_code` is
exactly `"default"` when the process-wide demo-mode setting is truthy, and
`"off"` otherwise; the two remaining declared demo modes (`"all_blue"`,
`"only_visible_elements"`) are never bound by the code executor. -/
theorem demo_mode_binding (p sm ri : Nat) (code : String) (g : Bool) :
    (invocationCtx p sm ri code g).demo_mode = some (demo_mode_value g) ∧
    demo_mode_value g = (if g then DemoMode.default else DemoMode.off) ∧
    demo_mode_value g ≠ DemoMode.all_blue ∧
    demo_mode_value g ≠ DemoMode.only_visible_elements := by
  refine ⟨rfl, rfl, ?_, ?_⟩ <;> cases g <;> decide

/-- C10: with demo mode bound to anything but `"off"`, `keyboard_type` on
empty text and `fill` on an empty value raise `ZeroDivisionError` while
computing `max(2000 / len(text), 10)` — before any clear or keystroke command
reaches the page (for `fill`, only the resolve and demo-effect steps have
run), whatever the page would have answered; with demo mode `"off"` the same
empty-text calls never reach that division and succeed. -/
theorem empty_text_zero_division (p sm ri : Nat) (retry : Bool)
    (demo : DemoMode) (bid : String)
    (clearRes : Bool → Except PwErr Unit) (typeRes : Except PwErr Unit)
    (fillRes : Bool → Except PwErr Unit) (hdemo : demo ≠ DemoMode.off) :
    keyboard_type ⟨some p, some sm, some ri, some demo, some retry⟩ "" =
      ⟨[], .error .zeroDivision⟩ ∧
    fill ⟨some p, some sm, some ri, some demo, some retry⟩ bid ""
        clearRes typeRes fillRes =
      ⟨[Cmd.resolveBid bid true, Cmd.demoEffects bid demo false true],
       .error .zeroDivision⟩ ∧
    keyboard_type ⟨some p, some sm, some ri, some DemoMode.off, some retry⟩ "" =
      ⟨[Cmd.keyboardType "" none], .ok ()⟩ ∧
    fill ⟨some p, some sm, some ri, some DemoMode.off, some retry⟩ bid ""
        (fun _ => .ok ()) (.ok ()) (fun _ => .ok ()) =
      ⟨[Cmd.resolveBid bid false, Cmd.demoEffects bid DemoMode.off false true,
        Cmd.elemFill bid "" false 500], .ok ()⟩ := by
  have hb : (demo != DemoMode.off) = true := bne_iff_ne.mpr hdemo
  refine ⟨?_, ?_, ?_, ?_⟩
  · simp [keyboard_type, readCtx, hb]
  · simp [fill, fill_do, readCtx, hb, call_fun]
  · simp [keyboard_type, readCtx]
  · simp [fill, fill_do, readCtx, call_fun, oneCmd]

theorem empty_text_zero_division_witness :
    (DemoMode.default ≠ DemoMode.off) ∧
    (keyboard_type ⟨some 0, some 0, some 0, some DemoMode.default, some true⟩ "" =
      ⟨[], .error .zeroDivision⟩ ∧
     fill ⟨some 0, some 0, some 0, some DemoMode.default, some true⟩ "a" ""
        (fun _ => .ok ()) (.ok ()) (fun _ => .ok ()) =
      ⟨[Cmd.resolveBid "a" true, Cmd.demoEffects "a" DemoMode.default false true],
       .error .zeroDivision⟩ ∧
     keyboard_type ⟨some 0, some 0, some 0, some DemoMode.off, some true⟩ "" =
      ⟨[Cmd.keyboardType "" none], .ok ()⟩ ∧
     fill ⟨some 0, some 0, some 0, some DemoMode.off, some true⟩ "a" ""
        (fun _ => .ok ()) (.ok ()) (fun _ => .ok ()) =
      ⟨[Cmd.resolveBid "a" false, Cmd.demoEffects "a" DemoMode.off false true,
        Cmd.elemFill "a" "" false 500], .ok ()⟩) :=
  ⟨by decide,
   empty_text_zero_division 0 0 0 true DemoMode.default "a"
     (fun _ => .ok ()) (.ok ()) (fun _ => .ok ()) (by decide)⟩

/-- C5 counterexample: with the force marker bound true and the page failing
the low-level `elem.clear` with a recoverable actionability error, the
`clear` action issues exactly one element-level command, with `force=false`,
and propagates the failure — there is no forced second attempt, so `clear`
does not invoke its page operation through the force-retry invoker as the
claim states for all text actions. -/
theorem clear_not_force_retried_counterexample :
    clear ⟨some 0, some 0, some 0, some DemoMode.off, some true⟩ "5"
        (Except.error PwErr.actionability) =
      ⟨[Cmd.resolveBid "5" false, Cmd.demoEffects "5" DemoMode.off false true,
        Cmd.elemClear "5" false 500], .error (.pw .actionability)⟩ ∧
    ((clear ⟨some 0, some 0, some 0, some DemoMode.off, some true⟩ "5"
        (Except.error PwErr.actionability)).trace.filter
          (fun c => cmdForce? c == some true)).length = 0 := by
  constructor
  · rfl
  · rfl

/-- C5 amended: only `fill` among the text actions routes its page operation
through the force-retry invoker (an actionability failure of the unforced
attempt is retried once with `force=true` when the bound flag is true);
`clear`, `press`, `focus`, `keyboard_type`, `keyboard_insert_text`,
`keyboard_down` and `keyboard_up` invoke the underlying page operation
directly — a single attempt, never forced, with any failure propagating
unretried whatever the bound retry flag. -/
theorem text_actions_retry_pipeline_amended (p sm ri : Nat) (retry : Bool)
    (demo : DemoMode) (bid keyComb text value : String)
    (res : Except PwErr Unit) (e : PwErr) :
    fill ⟨some p, some sm, some ri, some DemoMode.off, some true⟩ bid value
        (fun _ => .ok ()) (.ok ())
        (fun force => if force then .ok () else .error .actionability) =
      ⟨[Cmd.resolveBid bid false, Cmd.demoEffects bid DemoMode.off false true,
        Cmd.elemFill bid value false 500, Cmd.elemFill bid value true 500],
       .ok ()⟩ ∧
    (clear ⟨some p, some sm, some ri, some demo, some retry⟩ bid res).trace =
      [Cmd.resolveBid bid (demo != DemoMode.off),
       Cmd.demoEffects bid demo false true, Cmd.elemClear bid false 500] ∧
    (clear ⟨some p, some sm, some ri, some demo, some retry⟩ bid
        (.error e)).result = .error (.pw e) ∧
    (press ⟨some p, some sm, some ri, some demo, some retry⟩ bid keyComb
        res).trace =
      [Cmd.resolveBid bid (demo != DemoMode.off),
       Cmd.demoEffects bid demo false true, Cmd.elemPress bid keyComb 500] ∧
    (press ⟨some p, some sm, some ri, some demo, some retry⟩ bid keyComb
        (.error e)).result = .error (.pw e) ∧
    (focus ⟨some p, some sm, some ri, some demo, some retry⟩ bid res).trace =
      [Cmd.resolveBid bid (demo != DemoMode.off),
       Cmd.demoEffects bid demo false true, Cmd.elemFocus bid 500] ∧
    (focus ⟨some p, some sm, some ri, some demo, some retry⟩ bid
        (.error e)).result = .error (.pw e) ∧
    keyboard_insert_text ⟨some p, some sm, some ri, some demo, some retry⟩ text =
      ⟨[Cmd.keyboardInsertText text], .ok ()⟩ ∧
    keyboard_down ⟨some p, some sm, some ri, some demo, some retry⟩ keyComb =
      ⟨[Cmd.keyboardDownKey keyComb], .ok ()⟩ ∧
    keyboard_up ⟨some p, some sm, some ri, some demo, some retry⟩ keyComb =
      ⟨[Cmd.keyboardUpKey keyComb], .ok ()⟩ ∧
    ((keyboard_type ⟨some p, some sm, some ri, some demo, some retry⟩
        text).trace.filter (fun c => (cmdForce? c).isSome)) = [] := by
  refine ⟨?_, ?_, ?_, ?_, ?_, ?_, ?_, rfl, rfl, rfl, ?_⟩
  · simp [fill, fill_do, readCtx, call_fun, oneCmd]
  · cases res <;> rfl
  · cases e <;> rfl
  · cases res <;> rfl
  · cases e <;> rfl
  · cases res <;> rfl
  · cases e <;> rfl
  · by_cases hd : (demo != DemoMode.off) = true
    · by_cases ht : text.length = 0
      · simp [keyboard_type, readCtx, hd, ht, cmdForce?]
      · simp [keyboard_type, readCtx, hd, ht, cmdForce?]
    · simp [keyboard_type, readCtx, hd, cmdForce?]

theorem oneCmd_trace (c : Cmd) (res : Except PwErr Unit) :
    (oneCmd c res).trace = [c] := by
  cases res <;> rfl

theorem call_fun_trace_all (op : Bool → ActResult) (retry : Bool)
    (f : Cmd → Bool)
    (h0 : (op false).trace.all f = true) (h1 : (op true).trace.all f = true) :
    (call_fun op retry).trace.all f = true := by
  unfold call_fun
  cases retry
  · rcases hres : (op false).result with e | u
    · rcases e with _ | _ | e'
      · simpa [hres] using h0
      · simpa [hres] using h0
      · cases e' <;> simpa [hres] using h0
    · simpa [hres] using h0
  · rcases hres : (op false).result with e | u
    · rcases e with _ | _ | e'
      · simpa [hres] using h0
      · simpa [hres] using h0
      · cases e'
        · simp [hres, List.all_append, h0, h1]
        · simpa [hres] using h0
    · simpa [hres] using h0

/-- Timeout discipline actually implemented by the catalog: an element-level
page command carries `timeout=500`, except the demo-mode `elem.type` call of
`fill`, which passes `timeout=0` (no timeout). -/
def timeoutDiscipline (c : Cmd) : Bool :=
  match c with
  | .elemType _ _ _ t => t == 0
  | c' => match elemTimeout? c' with
          | none => true
          | some t => t == 500

/-- C6 counterexample: in demo mode, `fill` issues the element-level
`elem.type` command with `timeout=0` (the source comments "no timeout"), not
with the uniform 500 millisecond timeout the claim asserts for every
element-level command. -/
theorem fill_demo_type_no_timeout_counterexample :
    (fill ⟨some 0, some 0, some 0, some DemoMode.default, some false⟩ "a" "ab"
        (fun _ => .ok ()) (.ok ()) (fun _ => .ok ())).trace =
      [Cmd.resolveBid "a" true, Cmd.demoEffects "a" DemoMode.default false true,
       Cmd.elemClear "a" false 500,
       Cmd.elemType "a" "ab" (some (max (2000 / (("ab".length : Nat) : ℚ)) 10)) 0] ∧
    elemTimeout?
        (Cmd.elemType "a" "ab" (some (max (2000 / (("ab".length : Nat) : ℚ)) 10)) 0) =
      some 0 ∧
    (0 : Nat) ≠ 500 := by
  refine ⟨?_, rfl, by decide⟩
  have h2 : ¬ ("ab".length = 0) := by decide
  simp [fill, fill_do, readCtx, call_fun, h2]

/-- C6 amended: every element-level page command issued by the catalog
actions `click`, `fill`, `check`, `uncheck`, `hover`, `press`, `clear`,
`focus`, `select_option`, the drag-and-drop hovers and the upload click
carries a 500 millisecond timeout, with the single exception of the
demo-mode `elem.type` command of `fill`, which is issued with no timeout
(`timeout=0`). -/
theorem element_command_timeouts_amended (ctx : ExecCtx)
    (bid to_bid button keyComb value : String)
    (modifiers opts files : List String)
    (resB clearResB : Bool → Except PwErr Unit)
    (res res2 : Except PwErr Unit) (typeRes : Except PwErr Unit) :
    (click ctx bid button modifiers resB).trace.all timeoutDiscipline = true ∧
    (fill ctx bid value clearResB typeRes resB).trace.all timeoutDiscipline = true ∧
    (check ctx bid resB).trace.all timeoutDiscipline = true ∧
    (uncheck ctx bid resB).trace.all timeoutDiscipline = true ∧
    (hover ctx bid resB).trace.all timeoutDiscipline = true ∧
    (select_option ctx bid opts resB).trace.all timeoutDiscipline = true ∧
    (press ctx bid keyComb res).trace.all timeoutDiscipline = true ∧
    (clear ctx bid res).trace.all timeoutDiscipline = true ∧
    (focus ctx bid res).trace.all timeoutDiscipline = true ∧
    (drag_and_drop ctx bid to_bid res res2).trace.all timeoutDiscipline = true ∧
    (upload_file ctx bid files res).trace.all timeoutDiscipline = true := by
  rcases ctx with ⟨op, osm, ori, od, orf⟩
  rcases op with _ | pg
  · exact ⟨rfl, rfl, rfl, rfl, rfl, rfl, rfl, rfl, rfl, rfl, rfl⟩
  rcases od with _ | demo
  · exact ⟨rfl, rfl, rfl, rfl, rfl, rfl, rfl, rfl, rfl, rfl, rfl⟩
  have hdrag : (drag_and_drop ⟨some pg, osm, ori, some demo, orf⟩ bid to_bid
      res res2).trace.all timeoutDiscipline = true := by
    rcases res with e | u
    · simp [drag_and_drop, readCtx, timeoutDiscipline, elemTimeout?]
    · rcases res2 with e2 | u2 <;>
        simp [drag_and_drop, readCtx, timeoutDiscipline, elemTimeout?]
  have hupload : (upload_file ⟨some pg, osm, ori, some demo, orf⟩ bid files
      res).trace.all timeoutDiscipline = true := by
    rcases res with e | u <;> simp [upload_file, readCtx, timeoutDiscipline, elemTimeout?]
  rcases orf with _ | retry
  · exact ⟨rfl, rfl, rfl, rfl, rfl, rfl, by cases res <;> rfl,
           by cases res <;> rfl, by cases res <;> rfl, hdrag, hupload⟩
  have hfd : ∀ force, (fill_do bid value demo clearResB typeRes resB
      force).trace.all timeoutDiscipline = true := by
    intro force
    unfold fill_do
    by_cases hd : (demo != DemoMode.off) = true
    · by_cases hv : value.length = 0
      · simp [hd, hv]
      · rcases hc : clearResB force with e | u
        · simp [hd, hv, hc, timeoutDiscipline, elemTimeout?]
        · rcases typeRes with e2 | u2 <;>
            simp [hd, hv, hc, timeoutDiscipline, elemTimeout?]
    · simp [hd, oneCmd_trace, timeoutDiscipline, elemTimeout?]
  refine ⟨?_, ?_, ?_, ?_, ?_, ?_, by cases res <;> rfl, by cases res <;> rfl,
          by cases res <;> rfl, hdrag, hupload⟩
  · simp only [click, readCtx, List.all_append, Bool.and_eq_true]
    exact ⟨rfl, call_fun_trace_all _ retry _
      (by rw [oneCmd_trace]; rfl) (by rw [oneCmd_trace]; rfl)⟩
  · simp only [fill, readCtx, List.all_append, Bool.and_eq_true]
    exact ⟨rfl, call_fun_trace_all _ retry _ (hfd false) (hfd true)⟩
  · simp only [check, readCtx, List.all_append, Bool.and_eq_true]
    exact ⟨rfl, call_fun_trace_all _ retry _
      (by rw [oneCmd_trace]; rfl) (by rw [oneCmd_trace]; rfl)⟩
  · simp only [uncheck, readCtx, List.all_append, Bool.and_eq_true]
    exact ⟨rfl, call_fun_trace_all _ retry _
      (by rw [oneCmd_trace]; rfl) (by rw [oneCmd_trace]; rfl)⟩
  · simp only [hover, readCtx, List.all_append, Bool.and_eq_true]
    exact ⟨rfl, call_fun_trace_all _ retry _
      (by rw [oneCmd_trace]; rfl) (by rw [oneCmd_trace]; rfl)⟩
  · simp only [select_option, readCtx, List.all_append, Bool.and_eq_true]
    exact ⟨rfl, call_fun_trace_all _ retry _
      (by rw [oneCmd_trace]; rfl) (by rw [oneCmd_trace]; rfl)⟩

/-- Abstract Python values, classified by exactly what the namespace-building
filter of `execute_python_code` (`base.py`, lines 73-80) inspects:
callability and being a `ContextVar`, plus whether the value belongs to the
host's standard-library surface. -/
inductive PyVal
  | func (modName fnName : String)
  | specialForm (name : String)
  | pymodule (name : String)
  | contextVar (name : String)
  | strVal (s : String)
  | noneVal
  | asyncioModule
  | builtinsModule
  | coroutine (n : Nat)
  deriving DecidableEq

/-- Python `callable(value)`: plain functions are callable, as is
`typing.Literal` (a `typing._SpecialForm`, whose class defines `__call__`);
modules, `ContextVar` instances, strings, `None` and coroutine objects are
not. -/
def pyCallable : PyVal → Bool
  | .func _ _ => true
  | .specialForm _ => true
  | _ => false

/-- Python `isinstance(value, contextvars.ContextVar)`. -/
def isContextVarVal : PyVal → Bool
  | .contextVar _ => true
  | _ => false

/-- Values belonging to the host's standard-library surface: stdlib modules,
`typing` special forms and the builtins module. -/
def stdlibSurface : PyVal → Bool
  | .pymodule _ => true
  | .asyncioModule => true
  | .builtinsModule => true
  | .specialForm _ => true
  | _ => false

/-- Python dict with insertion order: an association list keyed by names. -/
abbrev PyDict := List (String × PyVal)

/-- Python attribute/keyed assignment (`setattr`, `d[k] = v`): replaces the
value under an existing key in place, otherwise appends the binding. -/
def dictSet (d : PyDict) (k : String) (v : PyVal) : PyDict :=
  match List.lookup k d with
  | some _ => d.map fun kv => if kv.1 = k then (k, v) else kv
  | none => d ++ [(k, v)]

/-- Lookup in a namespace dict. -/
def dictGet (d : PyDict) (k : String) : Option PyVal :=
  List.lookup k d

/-- Python `name.startswith("_")`: the name's first character is an
underscore. -/
def startsWithUnderscore (k : String) : Bool :=
  match k.toList with
  | [] => false
  | c :: _ => c == '_'

/-- Filter of `base.py`, lines 73-80: a module-dict binding is copied onto
the execution module when its value is callable, its name does not start
with an underscore, and its value is not a `ContextVar`. -/
def copiedBinding (kv : String × PyVal) : Bool :=
  pyCallable kv.2 && !(startsWithUnderscore kv.1) && !(isContextVarVal kv.2)

/-- Dict of a freshly created `types.ModuleType("action_exec_module")`:
module metadata only, no `__builtins__` entry. -/
def freshModuleDict : PyDict :=
  [("__name__", .strVal "action_exec_module"), ("__doc__", .noneVal),
   ("__package__", .noneVal), ("__loader__", .noneVal), ("__spec__", .noneVal)]

/-- Namespace template built once per process (`base.py`, lines 66-83): the
bindings of the functions module and then the utils module that pass the
filter are `setattr`-ed onto a fresh module, then `asyncio` is added. -/
def actionExecModule (functionsDict utilsDict : PyDict) : PyDict :=
  dictSet
    ((functionsDict.filter copiedBinding ++ utilsDict.filter copiedBinding).foldl
      (fun d kv => dictSet d kv.1 kv.2) freshModuleDict)
    "asyncio" .asyncioModule

/-- Evaluation of the wrapped code by `exec(wrapped_code, namespace)`
(`base.py`, lines 103-112) on a fresh copy of the template dict. Python's
`exec` first inserts a `__builtins__` binding into a globals dict that lacks
one; the wrapper then defines `__user_code_main__` and
`__user_code_result__`. The submitted code itself is the indented body of
`async def __user_code_main__`, so its top-level names are locals of that
coroutine and never enter the namespace; only explicit `global` writes
performed while it runs touch the namespace, modelled by `globalWrites`. -/
def execWrapped (ns : PyDict) (globalWrites : PyDict) : PyDict :=
  let ns1 : PyDict :=
    match dictGet ns "__builtins__" with
    | some _ => ns
    | none => dictSet ns "__builtins__" PyVal.builtinsModule
  let ns2 : PyDict :=
    dictSet (dictSet ns1 "__user_code_main__" (.func "wrapper" "__user_code_main__"))
      "__user_code_result__" (.coroutine 0)
  globalWrites.foldl (fun d kv => dictSet d kv.1 kv.2) ns2

/-- Module dict of `action/functions.py`, in binding order: module metadata,
the `typing.Literal` import, the imported `contextvars` and `playwright`
modules, the five helpers imported from `action/utils.py`, the five
`ContextVar` instances (`functions.py`, lines 14-24), and the thirty-four
action functions in definition order. -/
def functionsModuleDict : PyDict :=
  [("__name__", .strVal "browsergym.async_core.action.functions"),
   ("__doc__", .noneVal),
   ("__package__", .strVal "browsergym.async_core.action"),
   ("__loader__", .noneVal),
   ("__spec__", .noneVal),
   ("__file__", .strVal "functions.py"),
   ("__builtins__", .builtinsModule),
   ("Literal", .specialForm "Literal"),
   ("contextvars", .pymodule "contextvars"),
   ("playwright", .pymodule "playwright"),
   ("add_demo_mode_effects", .func "utils" "add_demo_mode_effects"),
   ("call_fun", .func "utils" "call_fun"),
   ("get_elem_by_bid", .func "utils" "get_elem_by_bid"),
   ("highlight_by_box", .func "utils" "highlight_by_box"),
   ("smooth_move_visual_cursor_to", .func "utils" "smooth_move_visual_cursor_to"),
   ("page_ctx", .contextVar "page"),
   ("send_message_to_user_ctx", .contextVar "send_message_to_user"),
   ("report_infeasible_instructions_ctx", .contextVar "report_infeasible_instructions"),
   ("demo_mode_ctx", .contextVar "demo_mode"),
   ("retry_with_force_ctx", .contextVar "retry_with_force"),
   ("send_msg_to_user", .func "functions" "send_msg_to_user"),
   ("report_infeasible", .func "functions" "report_infeasible"),
   ("noop", .func "functions" "noop"),
   ("fill", .func "functions" "fill"),
   ("check", .func "functions" "check"),
   ("uncheck", .func "functions" "uncheck"),
   ("select_option", .func "functions" "select_option"),
   ("click", .func "functions" "click"),
   ("dblclick", .func "functions" "dblclick"),
   ("hover", .func "functions" "hover"),
   ("press", .func "functions" "press"),
   ("focus", .func "functions" "focus"),
   ("clear", .func "functions" "clear"),
   ("drag_and_drop", .func "functions" "drag_and_drop"),
   ("scroll", .func "functions" "scroll"),
   ("mouse_move", .func "functions" "mouse_move"),
   ("mouse_up", .func "functions" "mouse_up"),
   ("mouse_down", .func "functions" "mouse_down"),
   ("mouse_click", .func "functions" "mouse_click"),
   ("mouse_dblclick", .func "functions" "mouse_dblclick"),
   ("mouse_drag_and_drop", .func "functions" "mouse_drag_and_drop"),
   ("keyboard_press", .func "functions" "keyboard_press"),
   ("keyboard_up", .func "functions" "keyboard_up"),
   ("keyboard_down", .func "functions" "keyboard_down"),
   ("keyboard_type", .func "functions" "keyboard_type"),
   ("keyboard_insert_text", .func "functions" "keyboard_insert_text"),
   ("goto", .func "functions" "goto"),
   ("go_back", .func "functions" "go_back"),
   ("go_forward", .func "functions" "go_forward"),
   ("new_tab", .func "functions" "new_tab"),
   ("tab_close", .func "functions" "tab_close"),
   ("tab_focus", .func "functions" "tab_focus"),
   ("upload_file", .func "functions" "upload_file"),
   ("mouse_upload_file", .func "functions" "mouse_upload_file")]

/-- Modelled from the spec: module dict of `action/utils.py`, a file absent
from the sources; it holds module metadata and (at least) the five public
helper callables that `functions.py` imports from it. -/
def utilsModuleDict : PyDict :=
  [("__name__", .strVal "browsergym.async_core.action.utils"),
   ("__doc__", .noneVal),
   ("__builtins__", .builtinsModule),
   ("add_demo_mode_effects", .func "utils" "add_demo_mode_effects"),
   ("call_fun", .func "utils" "call_fun"),
   ("get_elem_by_bid", .func "utils" "get_elem_by_bid"),
   ("highlight_by_box", .func "utils" "highlight_by_box"),
   ("smooth_move_visual_cursor_to", .func "utils" "smooth_move_visual_cursor_to")]

theorem lookup_mapSet_ne (d : PyDict) (k k' : String) (v : PyVal)
    (hne : k ≠ k') :
    List.lookup k (d.map fun kv => if kv.1 = k' then (k', v) else kv) =
      List.lookup k d := by
  have hk : (k == k') = false := beq_eq_false_iff_ne.mpr hne
  induction d with
  | nil => rfl
  | cons kv tl ih =>
      rcases kv with ⟨a, b⟩
      rw [List.map_cons]
      by_cases ha : a = k'
      · rw [if_pos ha]
        subst ha
        simp [List.lookup, hk, ih]
      · rw [if_neg ha]
        simp [List.lookup, ih]

theorem lookup_append_single_ne (d : PyDict) (k k' : String) (v : PyVal)
    (hne : k ≠ k') :
    List.lookup k (d ++ [(k', v)]) = List.lookup k d := by
  have hk : (k == k') = false := beq_eq_false_iff_ne.mpr hne
  induction d with
  | nil => simp [List.lookup, hk]
  | cons kv tl ih =>
      rcases kv with ⟨a, b⟩
      simp [List.lookup, ih]

theorem dictSet_lookup_ne (d : PyDict) (k k' : String) (v : PyVal)
    (hne : k ≠ k') : dictGet (dictSet d k' v) k = dictGet d k := by
  rcases h : List.lookup k' d with _ | w
  · simp only [dictGet, dictSet, h]
    exact lookup_append_single_ne d k k' v hne
  · simp only [dictGet, dictSet, h]
    exact lookup_mapSet_ne d k k' v hne

theorem foldl_dictSet_lookup_ne (ws : PyDict) (d : PyDict) (k : String)
    (hk : k ∉ ws.map Prod.fst) :
    dictGet (ws.foldl (fun d kv => dictSet d kv.1 kv.2) d) k = dictGet d k := by
  induction ws generalizing d with
  | nil => rfl
  | cons kv tl ih =>
      simp only [List.map_cons, List.mem_cons, not_or] at hk
      rw [List.foldl_cons, ih _ hk.2, dictSet_lookup_ne _ _ _ _ hk.1]

theorem execWrapped_lookup_ne (ns w : PyDict) (k : String)
    (h1 : k ≠ "__builtins__") (h2 : k ≠ "__user_code_main__")
    (h3 : k ≠ "__user_code_result__") (h4 : k ∉ w.map Prod.fst) :
    dictGet (execWrapped ns w) k = dictGet ns k := by
  unfold execWrapped
  rcases hb : dictGet ns "__builtins__" with _ | bv
  · simp only [hb]
    rw [foldl_dictSet_lookup_ne _ _ _ h4, dictSet_lookup_ne _ _ _ _ h3,
        dictSet_lookup_ne _ _ _ _ h2, dictSet_lookup_ne _ _ _ _ h1]
  · simp only [hb]
    rw [foldl_dictSet_lookup_ne _ _ _ h4, dictSet_lookup_ne _ _ _ _ h3,
        dictSet_lookup_ne _ _ _ _ h2]

/-- C8 counterexample: the namespace in which the agent code actually runs
is not limited to the public callables of the two action modules plus
`asyncio` — Python's `exec` injects a `__builtins__` binding (the builtins
module, part of the host's standard-library surface) into the globals dict
handed to the wrapped code, and that name is not among the copied public
callables nor `asyncio`. -/
theorem exec_namespace_builtins_counterexample :
    dictGet (execWrapped (actionExecModule functionsModuleDict utilsModuleDict) [])
        "__builtins__" = some PyVal.builtinsModule ∧
    stdlibSurface PyVal.builtinsModule = true ∧
    ("__builtins__" ∉
      ((functionsModuleDict.filter copiedBinding ++
        utilsModuleDict.filter copiedBinding).map Prod.fst ++ ["asyncio"])) := by
  refine ⟨by decide, rfl, by decide⟩

/-- C8 amended: the per-process namespace template holds exactly the public
callables of the functions and utils modules (including the callable
`typing.Literal` special form) plus `asyncio`, and none of the context
variables, non-callable imported modules, or underscore-prefixed module
internals; the namespace the agent code then runs in additionally receives
the `__builtins__` binding injected by `exec` and the two wrapper
definitions; each invocation starts from its own copy of the template, the
code's top-level names are locals of the wrapper coroutine, and a name
written by one invocation's global writes is invisible to another
invocation, whose namespace agrees with the template on every name outside
its own writes and the wrapper/builtins keys. -/
theorem exec_namespace_amended (w : PyDict) (k n : String)
    (hk1 : k ≠ "__builtins__") (hk2 : k ≠ "__user_code_main__")
    (hk3 : k ≠ "__user_code_result__") (hk4 : k ∉ w.map Prod.fst)
    (hn0 : dictGet (actionExecModule functionsModuleDict utilsModuleDict) n = none)
    (hn1 : n ≠ "__builtins__") (hn2 : n ≠ "__user_code_main__")
    (hn3 : n ≠ "__user_code_result__") (hn4 : n ∉ w.map Prod.fst) :
    dictGet (actionExecModule functionsModuleDict utilsModuleDict) "fill" =
      some (PyVal.func "functions" "fill") ∧
    dictGet (actionExecModule functionsModuleDict utilsModuleDict) "asyncio" =
      some PyVal.asyncioModule ∧
    dictGet (actionExecModule functionsModuleDict utilsModuleDict) "Literal" =
      some (PyVal.specialForm "Literal") ∧
    dictGet (actionExecModule functionsModuleDict utilsModuleDict) "page_ctx" = none ∧
    dictGet (actionExecModule functionsModuleDict utilsModuleDict) "contextvars" = none ∧
    dictGet (actionExecModule functionsModuleDict utilsModuleDict) "playwright" = none ∧
    dictGet (actionExecModule functionsModuleDict utilsModuleDict) "__builtins__" = none ∧
    ((actionExecModule functionsModuleDict utilsModuleDict).all fun kv =>
        copiedBinding kv || kv.1 == "asyncio" || startsWithUnderscore kv.1) = true ∧
    ((actionExecModule functionsModuleDict utilsModuleDict).all fun kv =>
        !(stdlibSurface kv.2) || kv.1 == "asyncio" || kv.1 == "Literal") = true ∧
    (((functionsModuleDict.filter copiedBinding ++
       utilsModuleDict.filter copiedBinding).all fun kv =>
        (dictGet (actionExecModule functionsModuleDict utilsModuleDict) kv.1).isSome)
      = true) ∧
    dictGet (execWrapped (actionExecModule functionsModuleDict utilsModuleDict) [])
        "__builtins__" = some PyVal.builtinsModule ∧
    dictGet (execWrapped (actionExecModule functionsModuleDict utilsModuleDict) w) k =
      dictGet (actionExecModule functionsModuleDict utilsModuleDict) k ∧
    dictGet (execWrapped (actionExecModule functionsModuleDict utilsModuleDict) w) n =
      none := by
  refine ⟨by decide, by decide, by decide, by decide, by decide, by decide, by decide,
          by decide, by decide, by decide, by decide, ?_, ?_⟩
  · exact execWrapped_lookup_ne _ _ _ hk1 hk2 hk3 hk4
  · rw [execWrapped_lookup_ne _ _ _ hn1 hn2 hn3 hn4]
    exact hn0

theorem exec_namespace_amended_witness :
    dictGet (execWrapped (actionExecModule functionsModuleDict utilsModuleDict)
        [("x", PyVal.noneVal)]) "fill" =
      dictGet (actionExecModule functionsModuleDict utilsModuleDict) "fill" ∧
    dictGet (execWrapped (actionExecModule functionsModuleDict utilsModuleDict)
        [("x", PyVal.noneVal)]) "zz" = none := by
  have h := exec_namespace_amended [("x", PyVal.noneVal)] "fill" "zz"
    (by decide) (by decide) (by decide) (by decide) (by decide) (by decide)
    (by decide) (by decide) (by decide)
  exact ⟨h.2.2.2.2.2.2.2.2.2.2.2.1, h.2.2.2.2.2.2.2.2.2.2.2.2⟩
